import Mathlib

/-!
# diego-ssh-windows: the SSH proxy of `proxy/proxy.go`

A shallow embedding of `proxy.go`.  Every function of the file is a Lean
function that returns the list of observable actions it performs, in program
order: calls into the SSH stack, the network, the logger and the application
log sink, and every `go` statement.  What the outside world answers to those
calls (the result of a dial, of a handshake, of `OpenChannel`, of `Accept`,
of `SendRequest`, of the JSON decoder, of the key parser) is an input of the
model, so a theorem quantified over those inputs holds for every behaviour of
the peers.

Go strings that the proxy inspects are decoded by `encoding/json`, which only
produces valid UTF-8; they are Lean strings, and `utf8.RuneCountInString` is
`String.length`.
-/

set_option linter.unusedVariables false

namespace DiegoSSH

/-! ## Data model -/

/-- Go byte slices (`[]byte`). -/
abbrev Bytes := List Nat

/-- A `lager.Logger`, identified by its chain of session names and the
`lager.Data` attached to it. -/
structure Logger where
  sessions : List String
  data : List (String × String)
deriving DecidableEq, Repr

/-- The method `logger.Session(name)`: a child logger. -/
def Logger.Session (logger : Logger) (name : String) : Logger :=
  { sessions := logger.sessions ++ [name], data := logger.data }

/-- The method `logger.Session(name, data)`: a child logger with more data. -/
def Logger.SessionData (logger : Logger) (name : String)
    (data : List (String × String)) : Logger :=
  { sessions := logger.sessions ++ [name], data := logger.data ++ data }

/-- A TCP socket (`net.Conn`). -/
structure NetConn where
  fd : Nat
deriving DecidableEq, Repr

/-- An SSH connection endpoint (`ssh.Conn`). -/
structure Conn where
  id : Nat
deriving DecidableEq, Repr

/-- An open SSH channel (`ssh.Channel`). -/
structure Channel where
  id : Nat
deriving DecidableEq, Repr

/-- A stream of requests (`<-chan *ssh.Request`). -/
structure RequestStream where
  id : Nat
deriving DecidableEq, Repr

/-- A stream of channel offers (`<-chan ssh.NewChannel`). -/
structure ChannelStream where
  id : Nat
deriving DecidableEq, Repr

/-- The Go type `ssh.RejectionReason` (a `uint32`). -/
abbrev RejectionReason := Nat

/-- The constant `ssh.ConnectionFailed`. -/
def ConnectionFailed : RejectionReason := 2

/-- The struct `TargetConfig` of `proxy.go`. -/
structure TargetConfig where
  Address : String
  HostFingerprint : String
  User : String
  Password : String
  PrivateKey : String
deriving DecidableEq, Repr

/-- The struct `LogMessage` of `proxy.go`; `Index` is a Go `int`. -/
structure LogMessage where
  Guid : String
  Message : String
  Index : Int
deriving DecidableEq, Repr

/-- The struct `ssh.Permissions`, as far as the proxy reads it: the map
`CriticalOptions`, which may be the nil map (`none`). -/
structure Permissions where
  CriticalOptions : Option (List (String × String))
deriving DecidableEq, Repr

/-- Indexing a Go `map[string]string`: the zero value `""` for a missing key,
also on the nil map. -/
def mapIndex (m : Option (List (String × String))) (key : String) : String :=
  match m with
  | none => ""
  | some entries => (entries.lookup key).getD ""

/-- An `*ssh.Request` read from a request stream. -/
structure Request where
  Type_ : String
  WantReply : Bool
  Payload : Bytes
deriving DecidableEq, Repr

/-- An `ssh.NewChannel` offer read from a channel stream. -/
structure NewChannel where
  ChannelType : String
  ExtraData : Bytes
deriving DecidableEq, Repr

/-- A parsed private key (`ssh.Signer`). -/
structure Signer where
  handle : Nat
deriving DecidableEq, Repr

/-- A host key (`ssh.PublicKey`), by its wire encoding. -/
structure PublicKey where
  blob : Bytes
deriving DecidableEq, Repr

/-- An `ssh.AuthMethod`, by the constructor that built it. -/
inductive AuthMethod where
  | PublicKeys (key : Signer)
  | Password (secret : String)
deriving DecidableEq, Repr

/-- The closure that `NewClientConn` stores in `clientConfig.HostKeyCallback`,
by the variables it captures: the session logger and the target
configuration. -/
structure HostKeyCallback where
  logger : Logger
  targetConfig : TargetConfig
deriving DecidableEq, Repr

/-- The struct `ssh.ClientConfig`, as far as `NewClientConn` fills it; the zero
value has an empty user, no auth method and no callback. -/
structure ClientConfig where
  User : String
  Auth : List AuthMethod
  HostKeyCallback : Option HostKeyCallback
deriving DecidableEq, Repr

/-- A non-nil Go `error` value: either an `*ssh.OpenChannelError` with its two
fields, or an error of any other type with the text of `err.Error()`. -/
inductive GoError where
  | OpenChannelError (Reason : RejectionReason) (Message : String)
  | other (text : String)
deriving DecidableEq, Repr

/-- The call `errors.New(text)`. -/
def errorsNew (text : String) : GoError := GoError.other text

/-! ## Observable actions -/

/-- One observable action of the proxy. -/
inductive Event where
  /-- The call `logger.Info(action, ...)`. -/
  | logInfo (logger : Logger) (action : String)
  /-- The call `logger.Error(action, err)`. -/
  | logError (logger : Logger) (action : String) (err : GoError)
  /-- The call `ssh.NewServerConn(netConn, p.serverConfig)`. -/
  | newServerConn (netConn : NetConn)
  /-- The call `Close()` on a TCP socket. -/
  | netClose (netConn : NetConn)
  /-- The call `Close()` on an SSH connection. -/
  | connClose (conn : Conn)
  /-- The call `net.Dial(network, address)`. -/
  | dial (network : String) (address : String)
  /-- The call `ssh.ParsePrivateKey(pem)`. -/
  | parsePrivateKey (pem : String)
  /-- The call `ssh.NewClientConn(nConn, addr, clientConfig)`. -/
  | sshNewClientConn (nConn : NetConn) (addr : String) (config : ClientConfig)
  /-- The call `logs.SendAppLog(appID, message, sourceType, sourceInstance)`. -/
  | sendAppLog (appID : String) (message : String) (sourceType : String)
      (sourceInstance : String)
  /-- The statement `go ProxyGlobalRequests(logger, conn, reqs)`. -/
  | goProxyGlobalRequests (logger : Logger) (conn : Conn) (reqs : RequestStream)
  /-- The statement `go ProxyChannels(logger, conn, channels)`. -/
  | goProxyChannels (logger : Logger) (conn : Conn) (channels : ChannelStream)
  /-- The statement `go func(waiter) { waiter.Wait(); wg.Done() }(waiter)`. -/
  | goWaiter (waiter : Conn)
  /-- The call `wg.Wait()`. -/
  | waitGroupWait
  /-- The call `conn.SendRequest(name, wantReply, payload)`. -/
  | connSendRequest (conn : Conn) (name : String) (wantReply : Bool) (payload : Bytes)
  /-- The call `channel.SendRequest(name, wantReply, payload)`. -/
  | channelSendRequest (channel : Channel) (name : String) (wantReply : Bool)
      (payload : Bytes)
  /-- The call `req.Reply(ok, payload)`; `none` is the nil payload. -/
  | reply (req : Request) (ok : Bool) (payload : Option Bytes)
  /-- The call `conn.OpenChannel(name, data)`. -/
  | openChannel (conn : Conn) (name : String) (data : Bytes)
  /-- The call `newChannel.Reject(reason, message)`. -/
  | reject (newChannel : NewChannel) (reason : RejectionReason) (message : String)
  /-- The call `newChannel.Accept()`. -/
  | accept (newChannel : NewChannel)
  /-- The call `Close()` on a channel. -/
  | channelClose (channel : Channel)
  /-- The statement
  `go func() { helpers.Copy(logger, nil, dest, src); dest.CloseWrite() }()`. -/
  | goCopy (logger : Logger) (dest : Channel) (src : Channel)
  /-- The statement `go ProxyRequests(logger, channelType, reqs, channel)`. -/
  | goProxyRequests (logger : Logger) (channelType : String) (reqs : RequestStream)
      (channel : Channel)
deriving DecidableEq, Repr

/-! ## Request forwarders -/

/-- What `conn.SendRequest` returns: `(success, reply, nil)` or an error. -/
inductive SendResult where
  | ok (success : Bool) (reply : Option Bytes)
  | err (e : GoError)
deriving DecidableEq, Repr

/-- What `channel.SendRequest` returns: `(success, nil)` or an error. -/
inductive ChannelSendResult where
  | ok (success : Bool)
  | err (e : GoError)
deriving DecidableEq, Repr

/-- One iteration of the loop of `ProxyGlobalRequests` (lines 99-114), for the
request `req` when `conn.SendRequest` answers `sent`; `logger` is the
`proxy-global-requests` session. -/
def proxyGlobalRequest (logger : Logger) (conn : Conn) (req : Request)
    (sent : SendResult) : List Event :=
  [Event.logInfo logger "request",
   Event.connSendRequest conn req.Type_ req.WantReply req.Payload] ++
  match sent with
  | SendResult.err e => [Event.logError logger "send-request-failed" e]
  | SendResult.ok success reply =>
    if req.WantReply then [Event.reply req success reply] else []

/-- The function `ProxyGlobalRequests`: `reqs` is the content of the request
stream up to its close, each request with the answer of `conn.SendRequest`. -/
def ProxyGlobalRequests (logger : Logger) (conn : Conn)
    (reqs : List (Request × SendResult)) : List Event :=
  let logger := logger.Session "proxy-global-requests"
  [Event.logInfo logger "started"] ++
  reqs.flatMap (fun r => proxyGlobalRequest logger conn r.1 r.2) ++
  [Event.logInfo logger "completed"]

/-- One iteration of the loop of `ProxyRequests` (lines 170-185). -/
def proxyRequest (logger : Logger) (channel : Channel) (req : Request)
    (sent : ChannelSendResult) : List Event :=
  [Event.logInfo logger "request",
   Event.channelSendRequest channel req.Type_ req.WantReply req.Payload] ++
  match sent with
  | ChannelSendResult.err e => [Event.logError logger "send-request-failed" e]
  | ChannelSendResult.ok success =>
    if req.WantReply then [Event.reply req success none] else []

/-- The function `ProxyRequests`; the deferred `channel.Close()` runs before
the deferred `logger.Info("completed")`. -/
def ProxyRequests (logger : Logger) (channelType : String)
    (reqs : List (Request × ChannelSendResult)) (channel : Channel) : List Event :=
  let logger := logger.SessionData "proxy-requests" [("channel-type", channelType)]
  [Event.logInfo logger "started"] ++
  reqs.flatMap (fun r => proxyRequest logger channel r.1 r.2) ++
  [Event.channelClose channel, Event.logInfo logger "completed"]

/-! ## Channel forwarder -/

/-- What `conn.OpenChannel` returns: the target channel and its request
stream, or an error. -/
inductive OpenResult where
  | ok (targetChan : Channel) (targetReqs : RequestStream)
  | err (e : GoError)
deriving DecidableEq, Repr

/-- What `newChannel.Accept()` returns: the source channel and its request
stream, or an error. -/
inductive AcceptResult where
  | ok (sourceChan : Channel) (sourceReqs : RequestStream)
  | err (e : GoError)
deriving DecidableEq, Repr

/-- One offer read from the channel stream, with what the peers answer while
it is processed: the result of the target's `OpenChannel` and the result of
the offer's `Accept` (consulted only when the open succeeded). -/
structure Offer where
  newChannel : NewChannel
  opened : OpenResult
  accepted : AcceptResult
deriving DecidableEq, Repr

/-- One iteration of the loop of `ProxyChannels` (lines 124-158); `logger` is
the `proxy-channels` session. -/
def proxyChannel (logger : Logger) (conn : Conn) (o : Offer) : List Event :=
  let newChannel := o.newChannel
  [Event.logInfo logger "new-channel",
   Event.openChannel conn newChannel.ChannelType newChannel.ExtraData] ++
  match o.opened with
  | OpenResult.err e =>
    [Event.logError logger "failed-to-open-channel" e] ++
    (match e with
     | GoError.OpenChannelError Reason Message =>
       [Event.reject newChannel Reason Message]
     | GoError.other text =>
       [Event.reject newChannel ConnectionFailed text])
  | OpenResult.ok targetChan targetReqs =>
    [Event.accept newChannel] ++
    match o.accepted with
    | AcceptResult.err _ => [Event.channelClose targetChan]
    | AcceptResult.ok sourceChan sourceReqs =>
      [Event.goCopy (logger.Session "to-target") targetChan sourceChan,
       Event.goCopy (logger.Session "to-source") sourceChan targetChan,
       Event.goProxyRequests logger newChannel.ChannelType sourceReqs targetChan,
       Event.goProxyRequests logger newChannel.ChannelType targetReqs sourceChan]

/-- The function `ProxyChannels`: `channels` is the content of the offer
stream up to its close.  The deferred `conn.Close()` runs before the deferred
`logger.Info("completed")`. -/
def ProxyChannels (logger : Logger) (conn : Conn) (channels : List Offer) :
    List Event :=
  let logger := logger.Session "proxy-channels"
  [Event.logInfo logger "started"] ++
  channels.flatMap (fun o => proxyChannel logger conn o) ++
  [Event.connClose conn, Event.logInfo logger "completed"]

/-! ## The outside world -/

/-- The library functions and constants that `proxy.go` uses and that live
outside the repository: `json.Unmarshal` at the two struct types (on a
zero-valued struct its result depends on the document only),
`ssh.ParsePrivateKey`, and the fingerprint helpers of `diego-ssh/helpers`. -/
structure Library where
  unmarshalTargetConfig : String → Except GoError TargetConfig
  unmarshalLogMessage : String → Except GoError LogMessage
  ParsePrivateKey : String → Except GoError Signer
  MD5_FINGERPRINT_LENGTH : Nat
  SHA1_FINGERPRINT_LENGTH : Nat
  MD5Fingerprint : PublicKey → String
  SHA1Fingerprint : PublicKey → String

/-- What a successful `ssh.NewClientConn` returns. -/
structure ClientHandles where
  conn : Conn
  channels : ChannelStream
  requests : RequestStream
deriving DecidableEq, Repr

/-- An `*ssh.ServerConn`: the connection and the `Permissions` pointer that
authentication produced (`none` is the nil pointer). -/
structure ServerConn where
  conn : Conn
  Permissions : Option Permissions
deriving DecidableEq, Repr

/-- What a successful `ssh.NewServerConn` returns. -/
structure ServerHandles where
  serverConn : ServerConn
  channels : ChannelStream
  requests : RequestStream
deriving DecidableEq, Repr

/-- An `*ssh.ServerConfig`. -/
structure ServerConfig where
  handle : Nat
deriving DecidableEq, Repr

/-- What the network and the remote peers answer: the result of `net.Dial`, of
the client handshake `ssh.NewClientConn` and of the server handshake
`ssh.NewServerConn`. -/
structure Network where
  Dial : String → String → Except GoError NetConn
  NewClientConn : NetConn → String → ClientConfig → Except GoError ClientHandles
  NewServerConn : NetConn → ServerConfig → Except GoError ServerHandles

/-! ## Backend dialer -/

/-- The body of the closure installed as `HostKeyCallback` (lines 245-263):
the log events it emits and the error it returns (`none` is nil). -/
def HostKeyCallback.call (lib : Library) (cb : HostKeyCallback) (hostname : String)
    (remote : String) (key : PublicKey) : List Event × Option GoError :=
  let expectedFingerprint := cb.targetConfig.HostFingerprint
  let actualFingerprint :=
    if expectedFingerprint.length = lib.MD5_FINGERPRINT_LENGTH then
      lib.MD5Fingerprint key
    else if expectedFingerprint.length = lib.SHA1_FINGERPRINT_LENGTH then
      lib.SHA1Fingerprint key
    else ""
  if expectedFingerprint ≠ actualFingerprint then
    let err := errorsNew "Host fingerprint mismatch"
    ([Event.logError cb.logger "host-key-fingerprint-mismatch" err], some err)
  else
    ([], none)

/-- Lines 225-238 of `NewClientConn`: the client configuration after the user
and private-key steps, or the error of `ssh.ParsePrivateKey`. -/
def clientConfigKeyStep (lib : Library) (logger : Logger) (targetConfig : TargetConfig) :
    List Event × Except GoError ClientConfig :=
  let clientConfig : ClientConfig := { User := "", Auth := [], HostKeyCallback := none }
  let clientConfig :=
    if targetConfig.User ≠ "" then { clientConfig with User := targetConfig.User }
    else clientConfig
  if targetConfig.PrivateKey ≠ "" then
    match lib.ParsePrivateKey targetConfig.PrivateKey with
    | Except.error err =>
      ([Event.parsePrivateKey targetConfig.PrivateKey,
        Event.logError logger "parsing-key-failed" err], Except.error err)
    | Except.ok key =>
      ([Event.parsePrivateKey targetConfig.PrivateKey],
       Except.ok { clientConfig with Auth := clientConfig.Auth ++ [AuthMethod.PublicKeys key] })
  else
    ([], Except.ok clientConfig)

/-- Lines 240-264 of `NewClientConn`: the password method and the host-key
callback. -/
def clientConfigFinish (logger : Logger) (targetConfig : TargetConfig)
    (clientConfig : ClientConfig) : ClientConfig :=
  let clientConfig :=
    if targetConfig.User ≠ "" ∧ targetConfig.Password ≠ "" then
      { clientConfig with
        Auth := clientConfig.Auth ++ [AuthMethod.Password targetConfig.Password] }
    else clientConfig
  if targetConfig.HostFingerprint ≠ "" then
    { clientConfig with
      HostKeyCallback := some { logger := logger, targetConfig := targetConfig } }
  else clientConfig

/-- Lines 219-272 of `NewClientConn`: dial, client configuration, handshake. -/
def dialTarget (lib : Library) (net : Network) (logger : Logger)
    (targetConfig : TargetConfig) : List Event × Except GoError ClientHandles :=
  match net.Dial "tcp" targetConfig.Address with
  | Except.error err =>
    ([Event.dial "tcp" targetConfig.Address, Event.logError logger "dial-failed" err],
     Except.error err)
  | Except.ok nConn =>
    match clientConfigKeyStep lib logger targetConfig with
    | (keyEvents, Except.error err) =>
      ([Event.dial "tcp" targetConfig.Address] ++ keyEvents, Except.error err)
    | (keyEvents, Except.ok clientConfig) =>
      let clientConfig := clientConfigFinish logger targetConfig clientConfig
      match net.NewClientConn nConn targetConfig.Address clientConfig with
      | Except.error err =>
        ([Event.dial "tcp" targetConfig.Address] ++ keyEvents ++
         [Event.sshNewClientConn nConn targetConfig.Address clientConfig,
          Event.logError logger "handshake-failed" err], Except.error err)
      | Except.ok handles =>
        ([Event.dial "tcp" targetConfig.Address] ++ keyEvents ++
         [Event.sshNewClientConn nConn targetConfig.Address clientConfig],
         Except.ok handles)

/-- The function `NewClientConn`: its events and its result. -/
def NewClientConn (lib : Library) (net : Network) (logger : Logger)
    (permissions : Option Permissions) : List Event × Except GoError ClientHandles :=
  let invalid : List Event × Except GoError ClientHandles :=
    let err := errorsNew "Invalid permissions from authentication"
    ([Event.logError logger "permissions-and-critical-options-required" err],
     Except.error err)
  match permissions with
  | none => invalid
  | some perms =>
    if perms.CriticalOptions = none then invalid
    else
      let targetConfigJson := mapIndex perms.CriticalOptions "proxy-target-config"
      let logger :=
        logger.SessionData "new-client-conn" [("proxy-target-config", targetConfigJson)]
      match lib.unmarshalTargetConfig
          (mapIndex perms.CriticalOptions "proxy-target-config") with
      | Except.error err =>
        ([Event.logError logger "unmarshal-failed" err], Except.error err)
      | Except.ok targetConfig => dialTarget lib net logger targetConfig

/-! ## Log emitter, wait and session supervisor -/

/-- The function `strconv.Itoa`. -/
def Itoa (i : Int) : String := toString i

/-- The function `emitLogMessage`: `none` is the run-time panic of
`perms.CriticalOptions` on the nil pointer, otherwise its events. -/
def emitLogMessage (lib : Library) (logger : Logger) (perms : Option Permissions) :
    Option (List Event) :=
  match perms with
  | none => none
  | some perms =>
    let logMessageJson := mapIndex perms.CriticalOptions "log-message"
    if logMessageJson = "" then some []
    else
      match lib.unmarshalLogMessage logMessageJson with
      | Except.error err => some [Event.logError logger "json-unmarshal-failed" err]
      | Except.ok logMessage =>
        some [Event.sendAppLog logMessage.Guid logMessage.Message "SSH"
                (Itoa logMessage.Index)]

/-- The function `Wait`: one watcher goroutine per waiter, then `wg.Wait()`. -/
def Wait (logger : Logger) (waiters : List Conn) : List Event :=
  waiters.map Event.goWaiter ++ [Event.waitGroupWait]

/-- The struct `Proxy`. -/
structure Proxy where
  logger : Logger
  serverConfig : ServerConfig
deriving DecidableEq, Repr

/-- A finished run of `HandleConnection`: its events, deferred calls included,
and whether it ended in a panic instead of a return. -/
structure Run where
  events : List Event
  panicked : Bool
deriving DecidableEq, Repr

/-- The method `HandleConnection`.  The deferred calls run in reverse order of
their `defer` statements, on return and on panic alike. -/
def HandleConnection (lib : Library) (net : Network) (p : Proxy) (netConn : NetConn) :
    Run :=
  let logger := p.logger.Session "handle-connection"
  match net.NewServerConn netConn p.serverConfig with
  | Except.error _ =>
    { events := [Event.newServerConn netConn, Event.netClose netConn],
      panicked := false }
  | Except.ok server =>
    let serverConn := server.serverConn
    match NewClientConn lib net logger serverConn.Permissions with
    | (dialEvents, Except.error _) =>
      { events := [Event.newServerConn netConn] ++ dialEvents ++
          [Event.connClose serverConn.conn, Event.netClose netConn],
        panicked := false }
    | (dialEvents, Except.ok client) =>
      let clientConn := client.conn
      let deferred :=
        [Event.connClose clientConn, Event.connClose serverConn.conn,
         Event.netClose netConn]
      match emitLogMessage lib logger serverConn.Permissions with
      | none =>
        { events := [Event.newServerConn netConn] ++ dialEvents ++ deferred,
          panicked := true }
      | some logEvents =>
        { events := [Event.newServerConn netConn] ++ dialEvents ++ logEvents ++
            [Event.goProxyGlobalRequests logger clientConn server.requests,
             Event.goProxyGlobalRequests logger serverConn.conn client.requests,
             Event.goProxyChannels logger clientConn server.channels,
             Event.goProxyChannels logger serverConn.conn client.channels] ++
            Wait logger [serverConn.conn, clientConn] ++ deferred,
          panicked := false }

/-! ## Observations on traces -/

/-- Whether an event is a `req.Reply` call. -/
def Event.isReply : Event → Bool
  | Event.reply _ _ _ => true
  | _ => false

/-- The `req.Reply` calls of a trace, in order. -/
def replies (events : List Event) : List Event := events.filter Event.isReply

/-- Whether an event is a `newChannel.Reject` call. -/
def Event.isReject : Event → Bool
  | Event.reject _ _ _ => true
  | _ => false

/-- The `Reject` calls of a trace, in order. -/
def rejections (events : List Event) : List Event := events.filter Event.isReject

/-- Whether an event starts a per-channel task: a data-copy goroutine or a
per-channel request forwarder. -/
def Event.isSpawn : Event → Bool
  | Event.goCopy _ _ _ => true
  | Event.goProxyRequests _ _ _ _ => true
  | _ => false

/-- The per-channel tasks a trace starts, in order. -/
def spawns (events : List Event) : List Event := events.filter Event.isSpawn

/-- State (a) of an offer: the target's `OpenChannel` succeeded, `Accept` was
called on the offer and succeeded. -/
def bridged (o : Offer) (segment : List Event) : Prop :=
  (∃ targetChan targetReqs, o.opened = OpenResult.ok targetChan targetReqs) ∧
  Event.accept o.newChannel ∈ segment ∧
  (∃ sourceChan sourceReqs, o.accepted = AcceptResult.ok sourceChan sourceReqs)

/-- State (b) of an offer: `Reject` was called on it with some reason and
message. -/
def rejected (o : Offer) (segment : List Event) : Prop :=
  ∃ reason message, Event.reject o.newChannel reason message ∈ segment

/-- The third state of an offer: the target's `OpenChannel` succeeded, `Accept`
was called on the offer and failed, and the opened target channel was
closed. -/
def abandoned (o : Offer) (segment : List Event) : Prop :=
  ∃ targetChan targetReqs, o.opened = OpenResult.ok targetChan targetReqs ∧
    Event.accept o.newChannel ∈ segment ∧
    (∃ e, o.accepted = AcceptResult.err e) ∧
    Event.channelClose targetChan ∈ segment

/-- An offer of a `session` channel for which the target opens channel 7 and
the source's `Accept` fails. -/
def offerAcceptFails : Offer :=
  { newChannel := { ChannelType := "session", ExtraData := [] },
    opened := OpenResult.ok { id := 7 } { id := 8 },
    accepted := AcceptResult.err (GoError.other "EOF") }

/-- An offer of a `session` channel that the target refuses with reason 1
(`ssh.Prohibited`) and the message of the end-to-end scenario. -/
def offerProhibited : Offer :=
  { newChannel := { ChannelType := "session", ExtraData := [] },
    opened := OpenResult.err (GoError.OpenChannelError 1 "no shell for you"),
    accepted := AcceptResult.ok { id := 3 } { id := 4 } }

/-- An offer of a `session` channel that both sides take. -/
def offerTaken : Offer :=
  { newChannel := { ChannelType := "session", ExtraData := [] },
    opened := OpenResult.ok { id := 1 } { id := 2 },
    accepted := AcceptResult.ok { id := 3 } { id := 4 } }

/-- A root logger. -/
def rootLogger : Logger := { sessions := [], data := [] }

/-- Whether an event is a `net.Dial` call. -/
def Event.isDial : Event → Bool
  | Event.dial _ _ => true
  | _ => false

/-- Whether an event is a `logs.SendAppLog` call. -/
def Event.isSendAppLog : Event → Bool
  | Event.sendAppLog _ _ _ _ => true
  | _ => false

/-- The application-log events of a trace, in order. -/
def appLogs (events : List Event) : List Event := events.filter Event.isSendAppLog

/-- The number that a string of decimal digits denotes, most significant digit
first: the reading of "decimal string" against which `Itoa` is checked. -/
def decimalValue (digits : List Char) : Nat :=
  digits.foldl (fun acc c => 10 * acc + (c.toNat - 48)) 0

/-- Whether an event is a `go` statement. -/
def Event.isGo : Event → Bool
  | Event.goProxyGlobalRequests _ _ _ => true
  | Event.goProxyChannels _ _ _ => true
  | Event.goWaiter _ => true
  | Event.goCopy _ _ _ => true
  | Event.goProxyRequests _ _ _ _ => true
  | _ => false

/-- Whether an event closes the TCP socket `netConn`. -/
def Event.closesSocket (netConn : NetConn) : Event → Bool
  | Event.netClose c => decide (c = netConn)
  | _ => false

/-! ## A sample environment -/

/-- A colon-separated MD5 fingerprint, 47 characters long. -/
def sampleFingerprint : String :=
  "e3:b0:c4:42:98:fc:1c:14:9a:fb:f4:c8:99:6f:b9:24"

/-- A `proxy-target-config` document with every field set. -/
def sampleTargetDocument : String :=
  "\x7b\"address\":\"10.0.0.5:2222\"," ++
  "\"host_fingerprint\":\"e3:b0:c4:42:98:fc:1c:14:9a:fb:f4:c8:99:6f:b9:24\"," ++
  "\"user\":\"alice\",\"password\":\"secret\",\"private_key\":\"PK_A\"\x7d"

/-- The `TargetConfig` that `sampleTargetDocument` decodes to. -/
def sampleTargetConfig : TargetConfig :=
  { Address := "10.0.0.5:2222", HostFingerprint := sampleFingerprint,
    User := "alice", Password := "secret", PrivateKey := "PK_A" }

/-- A `proxy-target-config` document whose private key is not a key. -/
def badKeyTargetDocument : String :=
  "\x7b\"address\":\"10.0.0.5:2222\",\"private_key\":\"not a key\"\x7d"

/-- The `TargetConfig` that `badKeyTargetDocument` decodes to. -/
def badKeyTargetConfig : TargetConfig :=
  { Address := "10.0.0.5:2222", HostFingerprint := "", User := "", Password := "",
    PrivateKey := "not a key" }

/-- The `log-message` document of the log-emission scenario. -/
def sampleLogDocument : String :=
  "\x7b\"guid\":\"app-1\",\"message\":\"ssh accessed\",\"index\":3\x7d"

/-- A library for the sample runs: the JSON decoder decodes the sample
documents and fails on every other input, the key parser accepts the text
`PK_A` only, the fingerprint lengths are 47 and 59, and every key has the
same two fingerprints. -/
def sampleLibrary : Library :=
  { unmarshalTargetConfig := fun document =>
      if document = sampleTargetDocument then Except.ok sampleTargetConfig
      else if document = badKeyTargetDocument then Except.ok badKeyTargetConfig
      else Except.error (GoError.other "unexpected end of JSON input"),
    unmarshalLogMessage := fun document =>
      if document = sampleLogDocument then
        Except.ok { Guid := "app-1", Message := "ssh accessed", Index := 3 }
      else Except.error (GoError.other "unexpected end of JSON input"),
    ParsePrivateKey := fun pem =>
      if pem = "PK_A" then Except.ok { handle := 1 }
      else Except.error (GoError.other "ssh: no key found"),
    MD5_FINGERPRINT_LENGTH := 47,
    SHA1_FINGERPRINT_LENGTH := 59,
    MD5Fingerprint := fun _ => sampleFingerprint,
    SHA1Fingerprint := fun _ =>
      "da:39:a3:ee:5e:6b:4b:0d:32:55:bf:ef:95:60:18:90:af:d8:07:09" }

/-- A network for the sample runs: every dial yields socket 5, the client
handshake on it succeeds, and the server handshake yields the given
permissions. -/
def sampleNetwork (permissions : Option Permissions) : Network :=
  { Dial := fun _ _ => Except.ok { fd := 5 },
    NewClientConn := fun _ _ _ =>
      Except.ok { conn := { id := 2 }, channels := { id := 20 }, requests := { id := 21 } },
    NewServerConn := fun _ _ =>
      Except.ok { serverConn := { conn := { id := 1 }, Permissions := permissions },
                  channels := { id := 10 }, requests := { id := 11 } } }

/-- The permissions of a session that targets `sampleTargetDocument` and
carries the sample log message. -/
def samplePermissions : Permissions :=
  { CriticalOptions := some [("proxy-target-config", sampleTargetDocument),
                             ("log-message", sampleLogDocument)] }

/-- The permissions of a session whose target has an unparsable private
key. -/
def badKeyPermissions : Permissions :=
  { CriticalOptions := some [("proxy-target-config", badKeyTargetDocument)] }

/-- The permissions of a session without a `proxy-target-config` entry. -/
def noTargetPermissions : Permissions :=
  { CriticalOptions := some [("log-message", sampleLogDocument)] }

/-- The proxy of the sample runs. -/
def sampleProxy : Proxy := { logger := rootLogger, serverConfig := { handle := 0 } }

/-- The logger that `NewClientConn` uses after reading the target document of
`samplePermissions`. -/
def sampleDialLogger : Logger :=
  rootLogger.SessionData "new-client-conn" [("proxy-target-config", sampleTargetDocument)]

/-- The client configuration that `NewClientConn` builds for
`samplePermissions` with `sampleLibrary`. -/
def sampleClientConfig : ClientConfig :=
  { User := "alice",
    Auth := [AuthMethod.PublicKeys { handle := 1 }, AuthMethod.Password "secret"],
    HostKeyCallback := some { logger := sampleDialLogger, targetConfig := sampleTargetConfig } }

/-! ## Theorems -/

theorem replies_append (xs ys : List Event) :
    replies (xs ++ ys) = replies xs ++ replies ys := by
  simp [replies]

theorem replies_flatMap {α : Type} (f : α → List Event) (xs : List α) :
    replies (xs.flatMap f) = xs.flatMap (fun x => replies (f x)) := by
  induction xs with
  | nil => rfl
  | cons x xs ih => simp [List.flatMap_cons, replies_append, ih]

theorem replies_proxyGlobalRequest (logger : Logger) (conn : Conn) (req : Request)
    (sent : SendResult) :
    replies (proxyGlobalRequest logger conn req sent) =
      match sent with
      | SendResult.ok success reply =>
        if req.WantReply then [Event.reply req success reply] else []
      | SendResult.err _ => [] := by
  cases sent with
  | ok success reply =>
    cases h : req.WantReply <;> simp [proxyGlobalRequest, replies, Event.isReply, h]
  | err e => simp [proxyGlobalRequest, replies, Event.isReply]

theorem replies_proxyRequest (logger : Logger) (channel : Channel) (req : Request)
    (sent : ChannelSendResult) :
    replies (proxyRequest logger channel req sent) =
      match sent with
      | ChannelSendResult.ok success =>
        if req.WantReply then [Event.reply req success none] else []
      | ChannelSendResult.err _ => [] := by
  cases sent with
  | ok success =>
    cases h : req.WantReply <;> simp [proxyRequest, replies, Event.isReply, h]
  | err e => simp [proxyRequest, replies, Event.isReply]

/-- C5: in a run of ProxyGlobalRequests (resp. ProxyRequests) over any finite
request stream and any answers of the peer, the Reply calls are, in stream
order, exactly one reply (success, reply payload) (resp. (success, nil)) for
each request that has WantReply set and whose send returned no error, and
none for any other request; so a request gets one reply if and only if it
wants one and its send succeeded, and the loop goes on after every request. -/
theorem C5_replies_exactly_for_wanted_and_sent (logger : Logger) (conn : Conn)
    (channelType : String) (channel : Channel)
    (greqs : List (Request × SendResult)) (creqs : List (Request × ChannelSendResult)) :
    replies (ProxyGlobalRequests logger conn greqs) =
        greqs.flatMap (fun r =>
          match r.2 with
          | SendResult.ok success reply =>
            if r.1.WantReply then [Event.reply r.1 success reply] else []
          | SendResult.err _ => []) ∧
    replies (ProxyRequests logger channelType creqs channel) =
        creqs.flatMap (fun r =>
          match r.2 with
          | ChannelSendResult.ok success =>
            if r.1.WantReply then [Event.reply r.1 success none] else []
          | ChannelSendResult.err _ => []) ∧
    (∀ lg req sent,
      (replies (proxyGlobalRequest lg conn req sent)).length = 1 ↔
        (req.WantReply = true ∧ ∃ success reply, sent = SendResult.ok success reply)) ∧
    (∀ lg req sent,
      (replies (proxyRequest lg channel req sent)).length = 1 ↔
        (req.WantReply = true ∧ ∃ success, sent = ChannelSendResult.ok success)) ∧
    (∀ lg req sent, (replies (proxyGlobalRequest lg conn req sent)).length ≤ 1) ∧
    (∀ lg req sent, (replies (proxyRequest lg channel req sent)).length ≤ 1) := by
  refine ⟨?_, ?_, ?_, ?_, ?_, ?_⟩
  · simp only [ProxyGlobalRequests, replies_append, replies_flatMap,
      replies_proxyGlobalRequest]
    simp [replies, Event.isReply]
  · simp only [ProxyRequests, replies_append, replies_flatMap, replies_proxyRequest]
    simp [replies, Event.isReply]
  · intro lg req sent
    rw [replies_proxyGlobalRequest]
    cases sent <;> cases h : req.WantReply <;> simp
  · intro lg req sent
    rw [replies_proxyRequest]
    cases sent <;> cases h : req.WantReply <;> simp
  · intro lg req sent
    rw [replies_proxyGlobalRequest]
    cases sent <;> cases h : req.WantReply <;> simp
  · intro lg req sent
    rw [replies_proxyRequest]
    cases sent <;> cases h : req.WantReply <;> simp

/-! ### Channel forwarder -/

theorem ProxyChannels_split (logger : Logger) (conn : Conn) (pre post : List Offer)
    (o : Offer) :
    ProxyChannels logger conn (pre ++ o :: post) =
      [Event.logInfo (logger.Session "proxy-channels") "started"] ++
      pre.flatMap (fun x => proxyChannel (logger.Session "proxy-channels") conn x) ++
      proxyChannel (logger.Session "proxy-channels") conn o ++
      post.flatMap (fun x => proxyChannel (logger.Session "proxy-channels") conn x) ++
      [Event.connClose conn,
       Event.logInfo (logger.Session "proxy-channels") "completed"] := by
  simp [ProxyChannels, List.flatMap_append, List.flatMap_cons]

/-- C2 (as stated, refuted): for the offer whose target channel opens and
whose Accept fails, the iteration ends neither in state (a), opened and
accepted, nor in state (b), rejected. -/
theorem C2_counterexample_accept_fails :
    ¬ ((bridged offerAcceptFails
          (proxyChannel (rootLogger.Session "proxy-channels") { id := 0 } offerAcceptFails) ∧
        ¬ rejected offerAcceptFails
          (proxyChannel (rootLogger.Session "proxy-channels") { id := 0 } offerAcceptFails)) ∨
       (rejected offerAcceptFails
          (proxyChannel (rootLogger.Session "proxy-channels") { id := 0 } offerAcceptFails) ∧
        ¬ bridged offerAcceptFails
          (proxyChannel (rootLogger.Session "proxy-channels") { id := 0 } offerAcceptFails))) := by
  rintro (⟨⟨_, _, ⟨s, sr, h⟩⟩, _⟩ | ⟨⟨r, m, h⟩, _⟩)
  · simp [offerAcceptFails] at h
  · simp [proxyChannel, offerAcceptFails] at h

/-- C2 (amended): every offer that ProxyChannels processes ends in exactly one
of three states: (a) the target channel was opened and the source offer was
accepted, (b) the source offer was rejected, with exactly one Reject call, or
(c) the target channel was opened, the source's Accept failed and the opened
target channel was closed, the offer being neither accepted nor rejected by
the forwarder. -/
theorem C2_offer_ends_in_one_of_three_states (logger : Logger) (conn : Conn)
    (pre post : List Offer) (o : Offer) :
    ProxyChannels logger conn (pre ++ o :: post) =
      [Event.logInfo (logger.Session "proxy-channels") "started"] ++
      pre.flatMap (fun x => proxyChannel (logger.Session "proxy-channels") conn x) ++
      proxyChannel (logger.Session "proxy-channels") conn o ++
      post.flatMap (fun x => proxyChannel (logger.Session "proxy-channels") conn x) ++
      [Event.connClose conn,
       Event.logInfo (logger.Session "proxy-channels") "completed"] ∧
    (bridged o (proxyChannel (logger.Session "proxy-channels") conn o) ∨
     rejected o (proxyChannel (logger.Session "proxy-channels") conn o) ∨
     abandoned o (proxyChannel (logger.Session "proxy-channels") conn o)) ∧
    ¬ (bridged o (proxyChannel (logger.Session "proxy-channels") conn o) ∧
       rejected o (proxyChannel (logger.Session "proxy-channels") conn o)) ∧
    ¬ (bridged o (proxyChannel (logger.Session "proxy-channels") conn o) ∧
       abandoned o (proxyChannel (logger.Session "proxy-channels") conn o)) ∧
    ¬ (rejected o (proxyChannel (logger.Session "proxy-channels") conn o) ∧
       abandoned o (proxyChannel (logger.Session "proxy-channels") conn o)) ∧
    (rejections (proxyChannel (logger.Session "proxy-channels") conn o)).length ≤ 1 ∧
    ((∃ e, o.opened = OpenResult.err e) ↔
      rejected o (proxyChannel (logger.Session "proxy-channels") conn o)) := by
  refine ⟨ProxyChannels_split logger conn pre post o, ?_⟩
  obtain ⟨nc, opened, accepted⟩ := o
  cases opened with
  | err e =>
    cases e <;>
      simp [bridged, rejected, abandoned, rejections, proxyChannel, Event.isReject]
  | ok t tr =>
    cases accepted <;>
      simp [bridged, rejected, abandoned, rejections, proxyChannel, Event.isReject]

theorem prefix_mem_before_of_split {l₁ l₂ before after : List Event} {e : Event}
    (h : l₁ ++ l₂ = before ++ e :: after) (he : e.isSpawn = true)
    (hl : ∀ x ∈ l₁, x.isSpawn = false) :
    (∀ x ∈ l₁, x ∈ before) ∧ e ∈ l₂ := by
  rcases List.append_eq_append_iff.mp h with ⟨a, hb, hl₂⟩ | ⟨c, hl₁, hc⟩
  · subst hb
    refine ⟨fun x hx => List.mem_append_left _ hx, ?_⟩
    rw [hl₂]
    simp
  · cases c with
    | nil =>
      simp only [List.append_nil] at hl₁
      simp only [List.nil_append] at hc
      subst hl₁
      refine ⟨fun x hx => hx, ?_⟩
      rw [← hc]
      simp
    | cons x c =>
      simp only [List.cons_append, List.cons.injEq] at hc
      obtain ⟨hx, _⟩ := hc
      subst hx
      have := hl e (by rw [hl₁]; simp)
      rw [he] at this
      cases this

/-- C3: when the target's OpenChannel fails for an offer, the iteration makes
exactly one Reject call on that offer: with the reason and message of the
error when it is an OpenChannelError, with ssh.ConnectionFailed and the error
text otherwise; it never calls Accept and starts no task, and the loop goes on
with the offers that follow. -/
theorem C3_open_failure_rejects_once (logger : Logger) (conn : Conn)
    (pre post : List Offer) (o : Offer) (e : GoError)
    (h : o.opened = OpenResult.err e) :
    rejections (proxyChannel (logger.Session "proxy-channels") conn o) =
      [match e with
       | GoError.OpenChannelError Reason Message =>
         Event.reject o.newChannel Reason Message
       | GoError.other text => Event.reject o.newChannel ConnectionFailed text] ∧
    Event.accept o.newChannel ∉ proxyChannel (logger.Session "proxy-channels") conn o ∧
    spawns (proxyChannel (logger.Session "proxy-channels") conn o) = [] ∧
    ProxyChannels logger conn (pre ++ o :: post) =
      [Event.logInfo (logger.Session "proxy-channels") "started"] ++
      pre.flatMap (fun x => proxyChannel (logger.Session "proxy-channels") conn x) ++
      proxyChannel (logger.Session "proxy-channels") conn o ++
      post.flatMap (fun x => proxyChannel (logger.Session "proxy-channels") conn x) ++
      [Event.connClose conn,
       Event.logInfo (logger.Session "proxy-channels") "completed"] := by
  refine ⟨?_, ?_, ?_, ProxyChannels_split logger conn pre post o⟩
  · cases e <;> simp [proxyChannel, h, rejections, Event.isReject]
  · cases e <;> simp [proxyChannel, h]
  · cases e <;> simp [proxyChannel, h, spawns, Event.isSpawn]

/-- C3 at the offer that the target refuses with reason 1 and the message
"no shell for you", between two other offers. -/
theorem C3_open_failure_rejects_once_witness :
    offerProhibited.opened = OpenResult.err (GoError.OpenChannelError 1 "no shell for you") ∧
    rejections (proxyChannel (rootLogger.Session "proxy-channels") { id := 0 }
        offerProhibited) =
      [Event.reject offerProhibited.newChannel 1 "no shell for you"] :=
  ⟨rfl, (C3_open_failure_rejects_once rootLogger { id := 0 } [offerTaken]
      [offerAcceptFails] offerProhibited (GoError.OpenChannelError 1 "no shell for you")
      rfl).1⟩

/-- C9: in every run of ProxyChannels the tasks of an offer (the two data-copy
goroutines and the two per-channel request forwarders) are started only after
the OpenChannel call and the Accept call of that offer, both of which
succeeded, and only on the two channels those calls returned; an offer whose
open or accept fails starts no task, and when accept fails the opened target
channel is closed; nothing outside the iterations starts a task. -/
theorem C9_tasks_only_after_open_and_accept (logger : Logger) (conn : Conn)
    (offers : List Offer) :
    spawns (ProxyChannels logger conn offers) =
      offers.flatMap (fun o =>
        spawns (proxyChannel (logger.Session "proxy-channels") conn o)) ∧
    (∀ o before e after,
      proxyChannel (logger.Session "proxy-channels") conn o = before ++ e :: after →
      e.isSpawn = true →
      ∃ targetChan targetReqs sourceChan sourceReqs,
        o.opened = OpenResult.ok targetChan targetReqs ∧
        o.accepted = AcceptResult.ok sourceChan sourceReqs ∧
        Event.openChannel conn o.newChannel.ChannelType o.newChannel.ExtraData ∈ before ∧
        Event.accept o.newChannel ∈ before ∧
        e ∈ [Event.goCopy ((logger.Session "proxy-channels").Session "to-target")
               targetChan sourceChan,
             Event.goCopy ((logger.Session "proxy-channels").Session "to-source")
               sourceChan targetChan,
             Event.goProxyRequests (logger.Session "proxy-channels")
               o.newChannel.ChannelType sourceReqs targetChan,
             Event.goProxyRequests (logger.Session "proxy-channels")
               o.newChannel.ChannelType targetReqs sourceChan]) ∧
    (∀ o, ((∃ e, o.opened = OpenResult.err e) ∨ (∃ e, o.accepted = AcceptResult.err e)) →
      spawns (proxyChannel (logger.Session "proxy-channels") conn o) = []) ∧
    (∀ o targetChan targetReqs e,
      o.opened = OpenResult.ok targetChan targetReqs → o.accepted = AcceptResult.err e →
      Event.channelClose targetChan ∈
        proxyChannel (logger.Session "proxy-channels") conn o) ∧
    (∀ o targetChan targetReqs sourceChan sourceReqs,
      o.opened = OpenResult.ok targetChan targetReqs →
      o.accepted = AcceptResult.ok sourceChan sourceReqs →
      spawns (proxyChannel (logger.Session "proxy-channels") conn o) =
        [Event.goCopy ((logger.Session "proxy-channels").Session "to-target")
           targetChan sourceChan,
         Event.goCopy ((logger.Session "proxy-channels").Session "to-source")
           sourceChan targetChan,
         Event.goProxyRequests (logger.Session "proxy-channels")
           o.newChannel.ChannelType sourceReqs targetChan,
         Event.goProxyRequests (logger.Session "proxy-channels")
           o.newChannel.ChannelType targetReqs sourceChan]) := by
  refine ⟨?_, ?_, ?_, ?_, ?_⟩
  · simp only [ProxyChannels, spawns, List.filter_append]
    rw [show ∀ (f : Offer → List Event) (xs : List Offer),
        List.filter Event.isSpawn (xs.flatMap f) =
          xs.flatMap (fun x => List.filter Event.isSpawn (f x)) from by
      intro f xs
      induction xs with
      | nil => rfl
      | cons x xs ih => simp [List.flatMap_cons, ih]]
    simp [Event.isSpawn]
  · intro o before e after hseg hspawn
    obtain ⟨nc, opened, accepted⟩ := o
    have hmem : e ∈ spawns (proxyChannel (logger.Session "proxy-channels") conn
        ⟨nc, opened, accepted⟩) := by
      rw [hseg]
      simp [spawns, hspawn]
    cases opened with
    | err e2 => cases e2 <;> simp [proxyChannel, spawns, Event.isSpawn] at hmem
    | ok t tr =>
      cases accepted with
      | err e2 => simp [proxyChannel, spawns, Event.isSpawn] at hmem
      | ok sc sr =>
        have hshape : proxyChannel (logger.Session "proxy-channels") conn
            ⟨nc, OpenResult.ok t tr, AcceptResult.ok sc sr⟩ =
            [Event.logInfo (logger.Session "proxy-channels") "new-channel",
             Event.openChannel conn nc.ChannelType nc.ExtraData,
             Event.accept nc] ++
            [Event.goCopy ((logger.Session "proxy-channels").Session "to-target") t sc,
             Event.goCopy ((logger.Session "proxy-channels").Session "to-source") sc t,
             Event.goProxyRequests (logger.Session "proxy-channels") nc.ChannelType sr t,
             Event.goProxyRequests (logger.Session "proxy-channels") nc.ChannelType tr sc] := by
          simp [proxyChannel]
        rw [hshape] at hseg
        obtain ⟨hpre, hin⟩ := prefix_mem_before_of_split hseg hspawn
          (by intro x hx; simp at hx; rcases hx with rfl | rfl | rfl <;> rfl)
        exact ⟨t, tr, sc, sr, rfl, rfl, hpre _ (by simp), hpre _ (by simp), hin⟩
  · rintro ⟨nc, opened, accepted⟩ (⟨e, h⟩ | ⟨e, h⟩)
    · simp only at h
      subst h
      cases e <;> simp [proxyChannel, spawns, Event.isSpawn]
    · simp only at h
      subst h
      cases opened with
      | err e2 => cases e2 <;> simp [proxyChannel, spawns, Event.isSpawn]
      | ok t tr => simp [proxyChannel, spawns, Event.isSpawn]
  · rintro ⟨nc, opened, accepted⟩ t tr e h1 h2
    simp only at h1 h2
    subst h1 h2
    simp [proxyChannel]
  · rintro ⟨nc, opened, accepted⟩ t tr s sr h1 h2
    simp only at h1 h2
    subst h1 h2
    simp [proxyChannel, spawns, Event.isSpawn]

/-! ### Backend dialer -/

theorem clientConfigKeyStep_events (lib : Library) (logger : Logger)
    (targetConfig : TargetConfig) :
    ∀ e ∈ (clientConfigKeyStep lib logger targetConfig).1,
      e = Event.parsePrivateKey targetConfig.PrivateKey ∨
      ∃ err, e = Event.logError logger "parsing-key-failed" err := by
  intro e he
  unfold clientConfigKeyStep at he
  by_cases hk : targetConfig.PrivateKey = ""
  · simp [hk] at he
  · cases hp : lib.ParsePrivateKey targetConfig.PrivateKey with
    | error err =>
      simp [hk, hp] at he
      rcases he with rfl | rfl
      · exact Or.inl rfl
      · exact Or.inr ⟨err, rfl⟩
    | ok key =>
      simp [hk, hp] at he
      exact Or.inl he

theorem dialTarget_reaches_handshake (lib : Library) (net : Network) (logger : Logger)
    (targetConfig : TargetConfig) (nConn : NetConn) (addr : String) (config : ClientConfig)
    (h : Event.sshNewClientConn nConn addr config ∈
      (dialTarget lib net logger targetConfig).1) :
    ∃ keyEvents keyConfig,
      net.Dial "tcp" targetConfig.Address = Except.ok nConn ∧
      clientConfigKeyStep lib logger targetConfig = (keyEvents, Except.ok keyConfig) ∧
      addr = targetConfig.Address ∧
      config = clientConfigFinish logger targetConfig keyConfig := by
  unfold dialTarget at h
  cases hd : net.Dial "tcp" targetConfig.Address with
  | error err => simp [hd] at h
  | ok c =>
    rcases hk : clientConfigKeyStep lib logger targetConfig with ⟨keyEvents, res⟩
    have hnot : Event.sshNewClientConn nConn addr config ∉ keyEvents := by
      intro hmem
      have := clientConfigKeyStep_events lib logger targetConfig
        (Event.sshNewClientConn nConn addr config) (by rw [hk]; exact hmem)
      rcases this with h1 | ⟨err, h1⟩ <;> cases h1
    cases res with
    | error err =>
      simp [hd, hk] at h
      exact absurd h hnot
    | ok keyConfig =>
      simp only [hd, hk] at h
      cases hh : net.NewClientConn c targetConfig.Address
          (clientConfigFinish logger targetConfig keyConfig) with
      | error err =>
        simp [hh, hnot] at h
        obtain ⟨rfl, rfl, rfl⟩ := h
        exact ⟨keyEvents, keyConfig, rfl, rfl, rfl, rfl⟩
      | ok handles =>
        simp [hh, hnot] at h
        obtain ⟨rfl, rfl, rfl⟩ := h
        exact ⟨keyEvents, keyConfig, rfl, rfl, rfl, rfl⟩

theorem NewClientConn_reaches_handshake (lib : Library) (net : Network) (logger : Logger)
    (perms : Permissions) (targetConfig : TargetConfig) (nConn : NetConn) (addr : String)
    (config : ClientConfig)
    (hdecode : lib.unmarshalTargetConfig
      (mapIndex perms.CriticalOptions "proxy-target-config") = Except.ok targetConfig)
    (h : Event.sshNewClientConn nConn addr config ∈
      (NewClientConn lib net logger (some perms)).1) :
    Event.sshNewClientConn nConn addr config ∈
      (dialTarget lib net
        (logger.SessionData "new-client-conn"
          [("proxy-target-config", mapIndex perms.CriticalOptions "proxy-target-config")])
        targetConfig).1 := by
  unfold NewClientConn at h
  by_cases hnil : perms.CriticalOptions = none
  · simp [hnil] at h
  · simpa [hnil, hdecode] using h

set_option maxRecDepth 100000 in
theorem sample_run_reaches_handshake :
    Event.sshNewClientConn { fd := 5 } "10.0.0.5:2222" sampleClientConfig ∈
      (NewClientConn sampleLibrary (sampleNetwork (some samplePermissions)) rootLogger
        (some samplePermissions)).1 := by
  have h : (NewClientConn sampleLibrary (sampleNetwork (some samplePermissions)) rootLogger
        (some samplePermissions)).1 =
      [Event.dial "tcp" "10.0.0.5:2222", Event.parsePrivateKey "PK_A",
       Event.sshNewClientConn { fd := 5 } "10.0.0.5:2222" sampleClientConfig] := by
    decide
  rw [h]
  simp

/-- C1: whenever NewClientConn reaches the client handshake for a decoded
TargetConfig whose host_fingerprint f is not empty, the configuration it
passes carries a host-key callback, and for every presented key that callback
returns nil if and only if f has MD5_FINGERPRINT_LENGTH characters and equals
the MD5 fingerprint of the key, or f has SHA1_FINGERPRINT_LENGTH characters
and equals the SHA-1 fingerprint of the key; otherwise it returns the error
"Host fingerprint mismatch", in particular for every key when f has neither
length.  The two length constants are distinct, as the cases of a Go switch
must be. -/
theorem C1_host_key_callback_accepts_iff_fingerprint_matches (lib : Library)
    (net : Network) (logger : Logger) (perms : Permissions) (targetConfig : TargetConfig)
    (nConn : NetConn) (addr : String) (config : ClientConfig)
    (hdistinct : lib.MD5_FINGERPRINT_LENGTH ≠ lib.SHA1_FINGERPRINT_LENGTH)
    (hdecode : lib.unmarshalTargetConfig
      (mapIndex perms.CriticalOptions "proxy-target-config") = Except.ok targetConfig)
    (hf : targetConfig.HostFingerprint ≠ "")
    (hcall : Event.sshNewClientConn nConn addr config ∈
      (NewClientConn lib net logger (some perms)).1) :
    ∃ cb, config.HostKeyCallback = some cb ∧ cb.targetConfig = targetConfig ∧
      ∀ hostname remote key,
        ((cb.call lib hostname remote key).2 = none ↔
          (targetConfig.HostFingerprint.length = lib.MD5_FINGERPRINT_LENGTH ∧
            targetConfig.HostFingerprint = lib.MD5Fingerprint key) ∨
          (targetConfig.HostFingerprint.length = lib.SHA1_FINGERPRINT_LENGTH ∧
            targetConfig.HostFingerprint = lib.SHA1Fingerprint key)) ∧
        ((cb.call lib hostname remote key).2 ≠ none →
          (cb.call lib hostname remote key).2 =
            some (errorsNew "Host fingerprint mismatch")) ∧
        (targetConfig.HostFingerprint.length ≠ lib.MD5_FINGERPRINT_LENGTH →
          targetConfig.HostFingerprint.length ≠ lib.SHA1_FINGERPRINT_LENGTH →
          (cb.call lib hostname remote key).2 =
            some (errorsNew "Host fingerprint mismatch")) := by
  have hreach := NewClientConn_reaches_handshake lib net logger perms targetConfig nConn
    addr config hdecode hcall
  obtain ⟨keyEvents, keyConfig, _, _, _, hconfig⟩ :=
    dialTarget_reaches_handshake lib net _ targetConfig nConn addr config hreach
  refine ⟨HostKeyCallback.mk (logger.SessionData "new-client-conn"
      [("proxy-target-config", mapIndex perms.CriticalOptions "proxy-target-config")])
    targetConfig, ?_, rfl, ?_⟩
  · rw [hconfig]
    simp [clientConfigFinish, hf]
  · intro hostname remote key
    have hres : (HostKeyCallback.call lib
          (HostKeyCallback.mk (logger.SessionData "new-client-conn"
            [("proxy-target-config", mapIndex perms.CriticalOptions "proxy-target-config")])
            targetConfig) hostname remote key).2 =
        if targetConfig.HostFingerprint ≠
            (if targetConfig.HostFingerprint.length = lib.MD5_FINGERPRINT_LENGTH then
              lib.MD5Fingerprint key
            else if targetConfig.HostFingerprint.length = lib.SHA1_FINGERPRINT_LENGTH then
              lib.SHA1Fingerprint key
            else "")
        then some (errorsNew "Host fingerprint mismatch") else none := by
      unfold HostKeyCallback.call
      exact apply_ite Prod.snd _ _ _
    rw [hres]
    by_cases h1 : targetConfig.HostFingerprint.length = lib.MD5_FINGERPRINT_LENGTH
    · have h2 : targetConfig.HostFingerprint.length ≠ lib.SHA1_FINGERPRINT_LENGTH := by
        rw [h1]; exact hdistinct
      rw [if_pos h1]
      by_cases h3 : targetConfig.HostFingerprint = lib.MD5Fingerprint key
      · rw [if_neg (not_not.mpr h3)]
        exact ⟨⟨fun _ => Or.inl ⟨h1, h3⟩, fun _ => rfl⟩, fun h => absurd rfl h,
          fun h => absurd h1 h⟩
      · rw [if_pos h3]
        refine ⟨⟨fun h => (by cases h), fun h => ?_⟩, fun _ => rfl, fun _ _ => rfl⟩
        rcases h with ⟨_, h⟩ | ⟨h, _⟩
        · exact absurd h h3
        · exact absurd h h2
    · rw [if_neg h1]
      by_cases h2 : targetConfig.HostFingerprint.length = lib.SHA1_FINGERPRINT_LENGTH
      · rw [if_pos h2]
        by_cases h3 : targetConfig.HostFingerprint = lib.SHA1Fingerprint key
        · rw [if_neg (not_not.mpr h3)]
          exact ⟨⟨fun _ => Or.inr ⟨h2, h3⟩, fun _ => rfl⟩, fun h => absurd rfl h,
            fun _ h => absurd h2 h⟩
        · rw [if_pos h3]
          refine ⟨⟨fun h => (by cases h), fun h => ?_⟩, fun _ => rfl, fun _ _ => rfl⟩
          rcases h with ⟨h, _⟩ | ⟨_, h⟩
          · exact absurd h h1
          · exact absurd h h3
      · rw [if_neg h2, if_pos hf]
        refine ⟨⟨fun h => (by cases h), fun h => ?_⟩, fun _ => rfl, fun _ _ => rfl⟩
        rcases h with ⟨h, _⟩ | ⟨h, _⟩
        · exact absurd h h1
        · exact absurd h h2

/-- C1 at the sample session: the callback installed for the 47-character
fingerprint accepts a key whose MD5 fingerprint is that text. -/
theorem C1_host_key_callback_accepts_iff_fingerprint_matches_witness :
    ∃ cb, sampleClientConfig.HostKeyCallback = some cb ∧
      (cb.call sampleLibrary "10.0.0.5:2222" "10.0.0.5:2222" { blob := [] }).2 = none := by
  obtain ⟨cb, h1, _, h3⟩ :=
    C1_host_key_callback_accepts_iff_fingerprint_matches sampleLibrary
      (sampleNetwork (some samplePermissions)) rootLogger samplePermissions
      sampleTargetConfig { fd := 5 } "10.0.0.5:2222" sampleClientConfig
      (by decide) (by rfl) (by decide) sample_run_reaches_handshake
  exact ⟨cb, h1, ((h3 "10.0.0.5:2222" "10.0.0.5:2222" { blob := [] }).1).2
    (Or.inl ⟨by decide, by rfl⟩)⟩

theorem clientConfigKeyStep_ok (lib : Library) (logger : Logger)
    (targetConfig : TargetConfig) (keyEvents : List Event) (keyConfig : ClientConfig)
    (h : clientConfigKeyStep lib logger targetConfig = (keyEvents, Except.ok keyConfig)) :
    keyConfig.User = targetConfig.User ∧ keyConfig.HostKeyCallback = none ∧
    (targetConfig.PrivateKey = "" → keyConfig.Auth = []) ∧
    (targetConfig.PrivateKey ≠ "" →
      ∃ key, lib.ParsePrivateKey targetConfig.PrivateKey = Except.ok key ∧
        keyConfig.Auth = [AuthMethod.PublicKeys key]) := by
  unfold clientConfigKeyStep at h
  have huser : (if targetConfig.User ≠ "" then
        ({ User := targetConfig.User, Auth := [], HostKeyCallback := none } : ClientConfig)
      else { User := "", Auth := [], HostKeyCallback := none }) =
      { User := targetConfig.User, Auth := [], HostKeyCallback := none } := by
    by_cases hu : targetConfig.User = ""
    · simp [hu]
    · simp [hu]
  by_cases hk : targetConfig.PrivateKey = ""
  · simp [hk, huser] at h
    obtain ⟨_, rfl⟩ := h
    simp [hk]
  · cases hp : lib.ParsePrivateKey targetConfig.PrivateKey with
    | error err => simp [hk, hp] at h
    | ok key =>
      simp [hk, hp, huser] at h
      obtain ⟨_, rfl⟩ := h
      simp [hk]

/-- C6: the configuration that NewClientConn passes to the client handshake
has as its authentication methods exactly: one public-key method built from
the parsed private_key when private_key is not empty, followed by one
password method for password when user and password are both not empty, and
nothing else; so the public-key method precedes the password method, and an
empty user means no password method. -/
theorem C6_auth_methods_key_then_password (lib : Library) (net : Network)
    (logger : Logger) (perms : Permissions) (targetConfig : TargetConfig)
    (nConn : NetConn) (addr : String) (config : ClientConfig)
    (hdecode : lib.unmarshalTargetConfig
      (mapIndex perms.CriticalOptions "proxy-target-config") = Except.ok targetConfig)
    (hcall : Event.sshNewClientConn nConn addr config ∈
      (NewClientConn lib net logger (some perms)).1) :
    ∃ keyPart passwordPart, config.Auth = keyPart ++ passwordPart ∧
      (targetConfig.PrivateKey = "" → keyPart = []) ∧
      (targetConfig.PrivateKey ≠ "" →
        ∃ key, lib.ParsePrivateKey targetConfig.PrivateKey = Except.ok key ∧
          keyPart = [AuthMethod.PublicKeys key]) ∧
      (targetConfig.User ≠ "" ∧ targetConfig.Password ≠ "" →
        passwordPart = [AuthMethod.Password targetConfig.Password]) ∧
      (targetConfig.User = "" ∨ targetConfig.Password = "" → passwordPart = []) := by
  have hreach := NewClientConn_reaches_handshake lib net logger perms targetConfig nConn
    addr config hdecode hcall
  obtain ⟨keyEvents, keyConfig, _, hkey, _, hconfig⟩ :=
    dialTarget_reaches_handshake lib net _ targetConfig nConn addr config hreach
  obtain ⟨_, _, hk1, hk2⟩ := clientConfigKeyStep_ok lib _ targetConfig keyEvents keyConfig hkey
  by_cases hpw : targetConfig.User ≠ "" ∧ targetConfig.Password ≠ ""
  · refine ⟨keyConfig.Auth, [AuthMethod.Password targetConfig.Password], ?_, hk1, hk2,
      fun _ => rfl, ?_⟩
    · rw [hconfig]
      unfold clientConfigFinish
      simp only [if_pos hpw]
      split <;> rfl
    · rintro (h | h)
      · exact absurd h hpw.1
      · exact absurd h hpw.2
  · refine ⟨keyConfig.Auth, [], ?_, hk1, hk2, fun h => absurd h hpw, fun _ => rfl⟩
    rw [hconfig]
    unfold clientConfigFinish
    simp only [if_neg hpw, List.append_nil]
    split <;> rfl

/-- C6 at the sample session, whose target sets private_key, user and
password: the public-key method comes first, the password method second. -/
theorem C6_auth_methods_key_then_password_witness :
    ∃ keyPart passwordPart, sampleClientConfig.Auth = keyPart ++ passwordPart ∧
      keyPart = [AuthMethod.PublicKeys { handle := 1 }] ∧
      passwordPart = [AuthMethod.Password "secret"] := by
  obtain ⟨keyPart, passwordPart, h1, _, h3, h4, _⟩ :=
    C6_auth_methods_key_then_password sampleLibrary
      (sampleNetwork (some samplePermissions)) rootLogger samplePermissions
      sampleTargetConfig { fd := 5 } "10.0.0.5:2222" sampleClientConfig
      (by rfl) sample_run_reaches_handshake
  obtain ⟨key, hkey, hkp⟩ := h3 (by decide)
  have hkey2 : key = { handle := 1 } := by
    have : sampleLibrary.ParsePrivateKey sampleTargetConfig.PrivateKey =
        Except.ok { handle := 1 } := by rfl
    rw [this] at hkey
    cases hkey
    rfl
  refine ⟨keyPart, passwordPart, h1, ?_, h4 ⟨by decide, by decide⟩⟩
  rw [hkp, hkey2]

/-- C4 (the code at the failing path): when the dial succeeds and the private
key of the target does not parse, NewClientConn returns the parse error after
the dial, the parse call and one log call, without any Close call on the
dialed socket. -/
theorem C4_socket_not_closed_when_key_does_not_parse (lib : Library) (net : Network)
    (logger : Logger) (perms : Permissions) (targetConfig : TargetConfig)
    (nConn : NetConn) (err : GoError)
    (hmap : perms.CriticalOptions ≠ none)
    (hdecode : lib.unmarshalTargetConfig
      (mapIndex perms.CriticalOptions "proxy-target-config") = Except.ok targetConfig)
    (hdial : net.Dial "tcp" targetConfig.Address = Except.ok nConn)
    (hkey : targetConfig.PrivateKey ≠ "")
    (hparse : lib.ParsePrivateKey targetConfig.PrivateKey = Except.error err) :
    NewClientConn lib net logger (some perms) =
      ([Event.dial "tcp" targetConfig.Address,
        Event.parsePrivateKey targetConfig.PrivateKey,
        Event.logError
          (logger.SessionData "new-client-conn"
            [("proxy-target-config", mapIndex perms.CriticalOptions "proxy-target-config")])
          "parsing-key-failed" err],
       Except.error err) ∧
    (NewClientConn lib net logger (some perms)).1.filter (Event.closesSocket nConn) = [] := by
  have h : NewClientConn lib net logger (some perms) =
      ([Event.dial "tcp" targetConfig.Address,
        Event.parsePrivateKey targetConfig.PrivateKey,
        Event.logError
          (logger.SessionData "new-client-conn"
            [("proxy-target-config", mapIndex perms.CriticalOptions "proxy-target-config")])
          "parsing-key-failed" err],
       Except.error err) := by
    simp [NewClientConn, hmap, hdecode, dialTarget, hdial, clientConfigKeyStep, hkey, hparse]
  refine ⟨h, ?_⟩
  rw [h]
  simp [Event.closesSocket]

/-- C4 at the session whose target document carries the private key
"not a key": socket 5 is dialed and is still open when NewClientConn
returns its error. -/
theorem C4_socket_not_closed_when_key_does_not_parse_witness :
    (sampleNetwork (some badKeyPermissions)).Dial "tcp" badKeyTargetConfig.Address =
      Except.ok { fd := 5 } ∧
    (NewClientConn sampleLibrary (sampleNetwork (some badKeyPermissions)) rootLogger
      (some badKeyPermissions)).2 = Except.error (GoError.other "ssh: no key found") ∧
    (NewClientConn sampleLibrary (sampleNetwork (some badKeyPermissions)) rootLogger
      (some badKeyPermissions)).1.filter (Event.closesSocket { fd := 5 }) = [] :=
  ⟨rfl,
   congrArg Prod.snd
    (C4_socket_not_closed_when_key_does_not_parse sampleLibrary
      (sampleNetwork (some badKeyPermissions)) rootLogger badKeyPermissions
      badKeyTargetConfig { fd := 5 } (GoError.other "ssh: no key found")
      (by decide) (by rfl) rfl (by decide) (by rfl)).1,
   (C4_socket_not_closed_when_key_does_not_parse sampleLibrary
      (sampleNetwork (some badKeyPermissions)) rootLogger badKeyPermissions
      badKeyTargetConfig { fd := 5 } (GoError.other "ssh: no key found")
      (by decide) (by rfl) rfl (by decide) (by rfl)).2⟩

/-! ### Target resolution, log emitter and session supervisor -/

theorem NewClientConn_nil_map (lib : Library) (net : Network) (logger : Logger)
    (perms : Permissions) (hnil : perms.CriticalOptions = none) :
    NewClientConn lib net logger (some perms) =
      ([Event.logError logger "permissions-and-critical-options-required"
          (errorsNew "Invalid permissions from authentication")],
       Except.error (errorsNew "Invalid permissions from authentication")) := by
  simp [NewClientConn, hnil]

theorem NewClientConn_undecodable (lib : Library) (net : Network) (logger : Logger)
    (perms : Permissions) (err : GoError) (hmap : perms.CriticalOptions ≠ none)
    (hdecode : lib.unmarshalTargetConfig
      (mapIndex perms.CriticalOptions "proxy-target-config") = Except.error err) :
    NewClientConn lib net logger (some perms) =
      ([Event.logError
          (logger.SessionData "new-client-conn"
            [("proxy-target-config", mapIndex perms.CriticalOptions "proxy-target-config")])
          "unmarshal-failed" err],
       Except.error err) := by
  simp [NewClientConn, hmap, hdecode]

theorem NewClientConn_aborts (lib : Library) (net : Network) (logger : Logger)
    (permissions : Option Permissions)
    (hbad : permissions = none ∨
      (∃ perms, permissions = some perms ∧ perms.CriticalOptions = none) ∨
      (∃ perms entries err, permissions = some perms ∧
        perms.CriticalOptions = some entries ∧
        entries.lookup "proxy-target-config" = none ∧
        lib.unmarshalTargetConfig "" = Except.error err) ∨
      (∃ perms err, permissions = some perms ∧
        lib.unmarshalTargetConfig
          (mapIndex perms.CriticalOptions "proxy-target-config") = Except.error err)) :
    ∃ lg action err,
      NewClientConn lib net logger permissions =
        ([Event.logError lg action err], Except.error err) := by
  rcases hbad with h | ⟨perms, h, hnil⟩ | ⟨perms, entries, err, h, hmap, hlookup, hempty⟩ |
      ⟨perms, err, h, hdecode⟩
  · subst h
    exact ⟨_, _, _, rfl⟩
  · subst h
    exact ⟨_, _, _, NewClientConn_nil_map lib net logger perms hnil⟩
  · subst h
    refine ⟨_, _, err, NewClientConn_undecodable lib net logger perms err ?_ ?_⟩
    · rw [hmap]
      simp
    · rw [hmap]
      simpa [mapIndex, hlookup] using hempty
  · subst h
    by_cases hnil : perms.CriticalOptions = none
    · exact ⟨_, _, _, NewClientConn_nil_map lib net logger perms hnil⟩
    · exact ⟨_, _, err, NewClientConn_undecodable lib net logger perms err hnil hdecode⟩

theorem NewClientConn_ok_permissions (lib : Library) (net : Network) (logger : Logger)
    (permissions : Option Permissions) (handles : ClientHandles)
    (h : (NewClientConn lib net logger permissions).2 = Except.ok handles) :
    ∃ perms entries, permissions = some perms ∧ perms.CriticalOptions = some entries := by
  cases permissions with
  | none => simp [NewClientConn] at h
  | some perms =>
    cases hmap : perms.CriticalOptions with
    | none =>
      rw [NewClientConn_nil_map lib net logger perms hmap] at h
      simp at h
    | some entries => exact ⟨perms, entries, rfl, hmap⟩

theorem emitLogMessage_returns (lib : Library) (logger : Logger) (perms : Permissions) :
    ∃ events, emitLogMessage lib logger (some perms) = some events := by
  unfold emitLogMessage
  by_cases h : mapIndex perms.CriticalOptions "log-message" = ""
  · exact ⟨[], by simp [h]⟩
  · cases hd : lib.unmarshalLogMessage (mapIndex perms.CriticalOptions "log-message") with
    | error err =>
      exact ⟨[Event.logError logger "json-unmarshal-failed" err], by simp [h, hd]⟩
    | ok msg =>
      exact ⟨[Event.sendAppLog msg.Guid msg.Message "SSH" (Itoa msg.Index)], by simp [h, hd]⟩

/-- C7: when the server handshake succeeds and the authenticated Permissions
are nil, or have a nil critical-options map, or have a map without a
proxy-target-config entry (the JSON decoder failing on the empty document),
or have an entry that does not decode as a TargetConfig, NewClientConn
returns an error without any net.Dial call, and HandleConnection closes the
inbound SSH connection and then the inbound TCP socket and returns, with no
application-log event and no go statement. -/
theorem C7_bad_permissions_abort_without_dial (lib : Library) (net : Network)
    (p : Proxy) (netConn : NetConn) (server : ServerHandles)
    (hserver : net.NewServerConn netConn p.serverConfig = Except.ok server)
    (hbad : server.serverConn.Permissions = none ∨
      (∃ perms, server.serverConn.Permissions = some perms ∧
        perms.CriticalOptions = none) ∨
      (∃ perms entries err, server.serverConn.Permissions = some perms ∧
        perms.CriticalOptions = some entries ∧
        entries.lookup "proxy-target-config" = none ∧
        lib.unmarshalTargetConfig "" = Except.error err) ∨
      (∃ perms err, server.serverConn.Permissions = some perms ∧
        lib.unmarshalTargetConfig
          (mapIndex perms.CriticalOptions "proxy-target-config") = Except.error err)) :
    (∃ err, (NewClientConn lib net (p.logger.Session "handle-connection")
        server.serverConn.Permissions).2 = Except.error err) ∧
    (NewClientConn lib net (p.logger.Session "handle-connection")
        server.serverConn.Permissions).1.filter Event.isDial = [] ∧
    HandleConnection lib net p netConn =
      { events := [Event.newServerConn netConn] ++
          (NewClientConn lib net (p.logger.Session "handle-connection")
            server.serverConn.Permissions).1 ++
          [Event.connClose server.serverConn.conn, Event.netClose netConn],
        panicked := false } ∧
    (HandleConnection lib net p netConn).events.filter Event.isDial = [] ∧
    appLogs (HandleConnection lib net p netConn).events = [] ∧
    (HandleConnection lib net p netConn).events.filter Event.isGo = [] := by
  obtain ⟨lg, action, err, hnc⟩ :=
    NewClientConn_aborts lib net (p.logger.Session "handle-connection")
      server.serverConn.Permissions hbad
  have hrun : HandleConnection lib net p netConn =
      { events := [Event.newServerConn netConn] ++
          (NewClientConn lib net (p.logger.Session "handle-connection")
            server.serverConn.Permissions).1 ++
          [Event.connClose server.serverConn.conn, Event.netClose netConn],
        panicked := false } := by
    simp [HandleConnection, hserver, hnc]
  refine ⟨⟨err, by rw [hnc]⟩, by rw [hnc]; simp [Event.isDial], hrun, ?_, ?_, ?_⟩
  · rw [hrun, hnc]
    simp [Event.isDial]
  · rw [hrun, hnc]
    simp [appLogs, Event.isSendAppLog]
  · rw [hrun, hnc]
    simp [Event.isGo]

/-- C7 at the session whose critical options lack proxy-target-config: the
run of HandleConnection is the server handshake, one log call, and the two
closes. -/
theorem C7_bad_permissions_abort_without_dial_witness :
    (HandleConnection sampleLibrary (sampleNetwork (some noTargetPermissions)) sampleProxy
      { fd := 4 }).events.filter Event.isDial = [] ∧
    appLogs (HandleConnection sampleLibrary (sampleNetwork (some noTargetPermissions))
      sampleProxy { fd := 4 }).events = [] :=
  ⟨(C7_bad_permissions_abort_without_dial sampleLibrary
      (sampleNetwork (some noTargetPermissions)) sampleProxy { fd := 4 }
      { serverConn := { conn := { id := 1 }, Permissions := some noTargetPermissions },
        channels := { id := 10 }, requests := { id := 11 } }
      rfl
      (Or.inr (Or.inr (Or.inl ⟨noTargetPermissions, _, GoError.other "unexpected end of JSON input",
        rfl, rfl, by decide, by rfl⟩)))).2.2.2.1,
   (C7_bad_permissions_abort_without_dial sampleLibrary
      (sampleNetwork (some noTargetPermissions)) sampleProxy { fd := 4 }
      { serverConn := { conn := { id := 1 }, Permissions := some noTargetPermissions },
        channels := { id := 10 }, requests := { id := 11 } }
      rfl
      (Or.inr (Or.inr (Or.inl ⟨noTargetPermissions, _, GoError.other "unexpected end of JSON input",
        rfl, rfl, by decide, by rfl⟩)))).2.2.2.2.1⟩

theorem toDigitsCore_append (fuel : Nat) : ∀ (n : Nat) (ds : List Char),
    Nat.toDigitsCore 10 fuel n ds = Nat.toDigitsCore 10 fuel n [] ++ ds := by
  induction fuel with
  | zero => intro n ds; simp [Nat.toDigitsCore]
  | succ f ih =>
    intro n ds
    simp only [Nat.toDigitsCore]
    split
    · simp
    · rw [ih (n / 10) (Nat.digitChar (n % 10) :: ds), ih (n / 10) [Nat.digitChar (n % 10)]]
      simp

theorem digitChar_value (k : Nat) (hk : k < 10) : (Nat.digitChar k).toNat - 48 = k := by
  interval_cases k <;> rfl

theorem digitChar_isDigit (k : Nat) (hk : k < 10) : (Nat.digitChar k).isDigit = true := by
  interval_cases k <;> rfl

theorem decimalValue_toDigitsCore (fuel : Nat) : ∀ n, n < fuel →
    decimalValue (Nat.toDigitsCore 10 fuel n []) = n := by
  induction fuel with
  | zero => intro n h; omega
  | succ f ih =>
    intro n h
    simp only [Nat.toDigitsCore]
    split
    · rename_i h0
      have hsmall : n < 10 := (Nat.div_eq_zero_iff (by norm_num : 0 < 10)).mp h0
      simp [decimalValue, Nat.mod_eq_of_lt hsmall, digitChar_value n hsmall]
    · rename_i h0
      rw [toDigitsCore_append]
      have hlt : n / 10 < f := by omega
      have hrec := ih (n / 10) hlt
      unfold decimalValue at hrec ⊢
      rw [List.foldl_append, hrec]
      simp [digitChar_value _ (Nat.mod_lt n (by norm_num))]
      omega

theorem isDigit_toDigitsCore (fuel : Nat) : ∀ n, ∀ c ∈ Nat.toDigitsCore 10 fuel n [],
    c.isDigit = true := by
  induction fuel with
  | zero => intro n c hc; simp [Nat.toDigitsCore] at hc
  | succ f ih =>
    intro n c hc
    simp only [Nat.toDigitsCore] at hc
    split at hc
    · simp only [List.mem_singleton] at hc
      rw [hc]
      exact digitChar_isDigit _ (Nat.mod_lt n (by norm_num))
    · rw [toDigitsCore_append] at hc
      rcases List.mem_append.mp hc with h1 | h1
      · exact ih (n / 10) c h1
      · simp only [List.mem_singleton] at h1
        rw [h1]
        exact digitChar_isDigit _ (Nat.mod_lt n (by norm_num))

theorem decimalValue_toDigits (n : Nat) : decimalValue (Nat.toDigits 10 n) = n :=
  decimalValue_toDigitsCore (n + 1) n (Nat.lt_succ_self n)

theorem isDigit_toDigits (n : Nat) : ∀ c ∈ Nat.toDigits 10 n, c.isDigit = true :=
  isDigit_toDigitsCore (n + 1) n

/-- C8: emitLogMessage never panics on non-nil Permissions; it sends no
application-log event when the log-message option is absent or empty or does
not decode as a LogMessage, and otherwise its only event is one SendAppLog
call with the guid, the message, the source "SSH" and the decimal string of
the index.  The decimal string is fixed independently of the model: it is the
standard rendering of the integer, for an index n that is not negative the
digit characters of n in base 10, which denote n, and for a negative index a
minus sign followed by the digits of its absolute value.  For the document of
the scenario, decoded as guid app-1, message "ssh accessed", index 3, the
event is ("app-1", "ssh accessed", "SSH", "3"). -/
theorem C8_log_emitter_zero_or_one_event (lib : Library) (logger : Logger)
    (perms : Permissions) :
    ∃ events, emitLogMessage lib logger (some perms) = some events ∧
      ((∀ entries, perms.CriticalOptions = some entries →
          entries.lookup "log-message" = none → events = []) ∧
       (mapIndex perms.CriticalOptions "log-message" = "" → events = []) ∧
       (∀ err, lib.unmarshalLogMessage (mapIndex perms.CriticalOptions "log-message") =
          Except.error err → appLogs events = []) ∧
       (∀ logMessage, mapIndex perms.CriticalOptions "log-message" ≠ "" →
          lib.unmarshalLogMessage (mapIndex perms.CriticalOptions "log-message") =
            Except.ok logMessage →
          events = [Event.sendAppLog logMessage.Guid logMessage.Message "SSH"
                      (toString logMessage.Index)] ∧
          appLogs events = [Event.sendAppLog logMessage.Guid logMessage.Message "SSH"
                      (toString logMessage.Index)]) ∧
       (mapIndex perms.CriticalOptions "log-message" = sampleLogDocument →
          lib.unmarshalLogMessage sampleLogDocument =
            Except.ok { Guid := "app-1", Message := "ssh accessed", Index := 3 } →
          events = [Event.sendAppLog "app-1" "ssh accessed" "SSH" "3"])) ∧
      (∀ i : Int, Itoa i = toString i) ∧
      (∀ n : Nat, Itoa (Int.ofNat n) = String.mk (Nat.toDigits 10 n) ∧
        (∀ c ∈ (Itoa (Int.ofNat n)).data, c.isDigit = true) ∧
        decimalValue (Itoa (Int.ofNat n)).data = n) ∧
      (∀ n : Nat, ∃ digits, Itoa (Int.negSucc n) = "-" ++ String.mk digits ∧
        (∀ c ∈ digits, c.isDigit = true) ∧ decimalValue digits = n + 1) ∧
      Itoa 0 = "0" ∧ Itoa 3 = "3" ∧ Itoa 42 = "42" ∧ Itoa (-7) = "-7" ∧
      Itoa 9223372036854775807 = "9223372036854775807" := by
  have hItoa : (∀ i : Int, Itoa i = toString i) ∧
      (∀ n : Nat, Itoa (Int.ofNat n) = String.mk (Nat.toDigits 10 n) ∧
        (∀ c ∈ (Itoa (Int.ofNat n)).data, c.isDigit = true) ∧
        decimalValue (Itoa (Int.ofNat n)).data = n) ∧
      (∀ n : Nat, ∃ digits, Itoa (Int.negSucc n) = "-" ++ String.mk digits ∧
        (∀ c ∈ digits, c.isDigit = true) ∧ decimalValue digits = n + 1) ∧
      Itoa 0 = "0" ∧ Itoa 3 = "3" ∧ Itoa 42 = "42" ∧ Itoa (-7) = "-7" ∧
      Itoa 9223372036854775807 = "9223372036854775807" := by
    refine ⟨fun _ => rfl, ?_, ?_, by decide, by decide, by decide, by decide, by decide⟩
    · intro n
      have h : Itoa (Int.ofNat n) = String.mk (Nat.toDigits 10 n) := rfl
      refine ⟨h, ?_, ?_⟩
      · rw [h]
        exact isDigit_toDigits n
      · rw [h]
        exact decimalValue_toDigits n
    · intro n
      exact ⟨Nat.toDigits 10 (n + 1), rfl, isDigit_toDigits (n + 1),
        decimalValue_toDigits (n + 1)⟩
  unfold emitLogMessage
  by_cases h : mapIndex perms.CriticalOptions "log-message" = ""
  · refine ⟨[], by simp [h], ⟨fun _ _ _ => rfl, fun _ => rfl, fun _ _ => rfl, ?_, ?_⟩, hItoa⟩
    · intro _ hne
      exact absurd h hne
    · intro hdoc
      rw [hdoc] at h
      exact absurd h (by decide)
  · cases hd : lib.unmarshalLogMessage (mapIndex perms.CriticalOptions "log-message") with
    | error err =>
      refine ⟨[Event.logError logger "json-unmarshal-failed" err], by simp [h, hd],
        ⟨?_, fun h2 => absurd h2 h, ?_, ?_, ?_⟩, hItoa⟩
      · intro entries hmap hlookup
        rw [hmap] at h
        simp [mapIndex, hlookup] at h
      · intro _ _
        simp [appLogs, Event.isSendAppLog]
      · intro _ _ hok
        cases hok
      · intro hdoc hok
        rw [hdoc, hok] at hd
        cases hd
    | ok msg =>
      refine ⟨[Event.sendAppLog msg.Guid msg.Message "SSH" (Itoa msg.Index)], by simp [h, hd],
        ⟨?_, fun h2 => absurd h2 h, ?_, ?_, ?_⟩, hItoa⟩
      · intro entries hmap hlookup
        rw [hmap] at h
        simp [mapIndex, hlookup] at h
      · intro _ herr
        cases herr
      · intro logMessage _ hok
        cases hok
        exact ⟨rfl, by simp [appLogs, Event.isSendAppLog, Itoa]⟩
      · intro hdoc hok
        rw [hdoc, hok] at hd
        cases hd
        rfl

/-- C8 at the sample session: the log-message document of the scenario gives
the one event ("app-1", "ssh accessed", "SSH", "3"). -/
theorem C8_log_emitter_zero_or_one_event_witness :
    emitLogMessage sampleLibrary rootLogger (some samplePermissions) =
      some [Event.sendAppLog "app-1" "ssh accessed" "SSH" "3"] := by
  obtain ⟨events, h1, ⟨_, _, _, _, h5⟩, _⟩ :=
    C8_log_emitter_zero_or_one_event sampleLibrary rootLogger samplePermissions
  rw [h1, h5 (by rfl) (by rfl)]

/-- C10: emitLogMessage dereferences its Permissions pointer without a nil
check and panics on the nil pointer, but no run of HandleConnection ends in a
panic: NewClientConn succeeds only on non-nil Permissions with a non-nil
critical-options map, on which emitLogMessage returns; and when the
authenticated Permissions are nil or carry the nil map, NewClientConn returns
an error and HandleConnection returns after closing the inbound connection
and socket, before the call. -/
theorem C10_nil_dereference_unreachable (lib : Library) (net : Network) (p : Proxy)
    (netConn : NetConn) :
    (∀ logger, emitLogMessage lib logger none = none) ∧
    (HandleConnection lib net p netConn).panicked = false ∧
    (∀ logger permissions handles,
      (NewClientConn lib net logger permissions).2 = Except.ok handles →
      ∃ perms entries, permissions = some perms ∧ perms.CriticalOptions = some entries ∧
        ∃ events, emitLogMessage lib logger permissions = some events) ∧
    (∀ server, net.NewServerConn netConn p.serverConfig = Except.ok server →
      (server.serverConn.Permissions = none ∨
        ∃ perms, server.serverConn.Permissions = some perms ∧
          perms.CriticalOptions = none) →
      (NewClientConn lib net (p.logger.Session "handle-connection")
          server.serverConn.Permissions).2 =
        Except.error (errorsNew "Invalid permissions from authentication") ∧
      HandleConnection lib net p netConn =
        { events :=
            [Event.newServerConn netConn,
             Event.logError (p.logger.Session "handle-connection")
               "permissions-and-critical-options-required"
               (errorsNew "Invalid permissions from authentication"),
             Event.connClose server.serverConn.conn, Event.netClose netConn],
          panicked := false }) := by
  have hok : ∀ logger permissions handles,
      (NewClientConn lib net logger permissions).2 = Except.ok handles →
      ∃ perms entries, permissions = some perms ∧ perms.CriticalOptions = some entries ∧
        ∃ events, emitLogMessage lib logger permissions = some events := by
    intro logger permissions handles h
    obtain ⟨perms, entries, h1, h2⟩ :=
      NewClientConn_ok_permissions lib net logger permissions handles h
    subst h1
    exact ⟨perms, entries, rfl, h2, emitLogMessage_returns lib logger perms⟩
  refine ⟨fun _ => rfl, ?_, hok, ?_⟩
  · unfold HandleConnection
    cases hs : net.NewServerConn netConn p.serverConfig with
    | error err => rfl
    | ok server =>
      rcases hnc : NewClientConn lib net (p.logger.Session "handle-connection")
          server.serverConn.Permissions with ⟨dialEvents, res⟩
      cases res with
      | error err => simp [hnc]
      | ok client =>
        obtain ⟨perms, entries, _, _, events, hev⟩ :=
          hok (p.logger.Session "handle-connection") server.serverConn.Permissions client
            (by rw [hnc])
        simp [hnc, hev]
  · intro server hs hnil
    have hnc : NewClientConn lib net (p.logger.Session "handle-connection")
        server.serverConn.Permissions =
        ([Event.logError (p.logger.Session "handle-connection")
            "permissions-and-critical-options-required"
            (errorsNew "Invalid permissions from authentication")],
         Except.error (errorsNew "Invalid permissions from authentication")) := by
      rcases hnil with h | ⟨perms, h, hmap⟩
      · rw [h]
        rfl
      · rw [h]
        exact NewClientConn_nil_map lib net _ perms hmap
    refine ⟨by rw [hnc], ?_⟩
    simp [HandleConnection, hs, hnc]

/-- C10 at a session whose authentication produced nil Permissions: the run
returns after the two closes and does not panic. -/
theorem C10_nil_dereference_unreachable_witness :
    HandleConnection sampleLibrary (sampleNetwork none) sampleProxy { fd := 4 } =
      { events :=
          [Event.newServerConn { fd := 4 },
           Event.logError (rootLogger.Session "handle-connection")
             "permissions-and-critical-options-required"
             (errorsNew "Invalid permissions from authentication"),
           Event.connClose { id := 1 }, Event.netClose { fd := 4 }],
        panicked := false } :=
  ((C10_nil_dereference_unreachable sampleLibrary (sampleNetwork none) sampleProxy
      { fd := 4 }).2.2.2
    { serverConn := { conn := { id := 1 }, Permissions := none },
      channels := { id := 10 }, requests := { id := 11 } }
    rfl (Or.inl rfl)).2

end DiegoSSH
